import Mathlib

set_option maxRecDepth 40000

/-!
Verification of the chaos fault-injection engine and metrics pipeline of the
Multi-tenant Distributed API Gateway.

Shallow embedding conventions:
* Go `time.Duration` (int64 nanoseconds) is modelled as `Nat` for latency
  samples (they come from `time.Since`, hence non-negative) and as `Int` for
  configuration fields, where the Go values may in principle be negative.
* Go `time.Time` is modelled as `Int` nanoseconds since the zero time, with
  `0` playing the role of the zero value (`IsZero`).
* `rand.Intn(100)` draws are modelled as `Fin 100`.
* Go `int64` counters only ever increase by one, so they are modelled as `Nat`
  (overflow is unreachable from the zero-initialised process state).
* Go maps are modelled as association lists `List (String × _)`; `m[key]++`
  on an absent key stores `1`, matching Go's zero-value semantics.
-/

namespace Gateway

/-- `internal/chaos/types.go` — `Config`. -/
structure Config where
  enabled : Bool
  route : String
  delay : Int          -- time.Duration, nanoseconds
  errorRate : Int      -- % chance to return 503
  dropRate : Int       -- % chance to drop request
  expiresAt : Int      -- time.Time, 0 = zero value
  deriving DecidableEq, Repr

/-- The Go zero value `Config{}`. -/
def Config.zero : Config :=
  { enabled := false, route := "", delay := 0, errorRate := 0, dropRate := 0,
    expiresAt := 0 }

/-- `internal/chaos/types.go` — `Stats`. -/
structure Stats where
  totalRequests : Nat
  droppedRequests : Nat
  failedRequests : Nat
  delayedRequests : Nat
  lastRecoveryTime : Int    -- time.Time, 0 = zero value
  lastInjectionTime : Int   -- time.Time, 0 = zero value
  deriving DecidableEq, Repr

def Stats.zero : Stats :=
  { totalRequests := 0, droppedRequests := 0, failedRequests := 0,
    delayedRequests := 0, lastRecoveryTime := 0, lastInjectionTime := 0 }

/-- `internal/chaos/controller.go` — `RecordRequest` (the increment performed
under the controller mutex). -/
def recordRequest (s : Stats) : Stats :=
  { s with totalRequests := s.totalRequests + 1 }

/-- `internal/chaos/controller.go` — `RecordDrop`. -/
def recordDrop (s : Stats) : Stats :=
  { s with droppedRequests := s.droppedRequests + 1 }

/-- `internal/chaos/controller.go` — `RecordFail`. -/
def recordFail (s : Stats) : Stats :=
  { s with failedRequests := s.failedRequests + 1 }

/-- `internal/chaos/controller.go` — `RecordDelay`. -/
def recordDelay (s : Stats) : Stats :=
  { s with delayedRequests := s.delayedRequests + 1 }

/-- `internal/chaos/controller.go` — `Set`: replaces the configuration
wholesale and, when the new configuration is enabled, stamps
`lastInjectionTime` with the current time. -/
def setConfig (cfg : Config) (now : Int) (st : Config × Stats) : Config × Stats :=
  (cfg, if cfg.enabled then { st.2 with lastInjectionTime := now } else st.2)

/-- `internal/chaos/controller.go` — `Clear`. -/
def clearConfig (now : Int) (st : Config × Stats) : Config × Stats :=
  (Config.zero, { st.2 with lastRecoveryTime := now })

/-- `internal/chaos/controller.go` — one iteration of the `AutoRecover`
background loop, taken under the controller's write lock at time `now`:
if the configuration is enabled, has a non-zero `ExpiresAt` and
`time.Now().After(ExpiresAt)` (strict `>`), replace it by the zero value and
stamp `lastRecoveryTime`. -/
def autoRecoverTick (now : Int) (cfg : Config) (s : Stats) : Config × Stats :=
  if cfg.enabled = true ∧ cfg.expiresAt ≠ 0 ∧ cfg.expiresAt < now then
    (Config.zero, { s with lastRecoveryTime := now })
  else
    (cfg, s)

/-- Increment the counter stored under `key` in an association-list map:
Go's `m[key]++` (an absent key reads as the zero value, so it stores `1`). -/
def bump (m : List (String × Nat)) (key : String) : List (String × Nat) :=
  match m with
  | [] => [(key, 1)]
  | (k, v) :: rest =>
    if k = key then (k, v + 1) :: rest else (k, v) :: bump rest key

/-- Read a counter map entry; an absent key reads as Go's zero value `0`. -/
def lookup0 (m : List (String × Nat)) (key : String) : Nat :=
  match m with
  | [] => 0
  | (k, v) :: rest => if k = key then v else lookup0 rest key

/-- Read a latency-sample map entry; an absent key reads as `nil` (`[]`). -/
def lookupL (m : List (String × List Nat)) (key : String) : List Nat :=
  match m with
  | [] => []
  | (k, v) :: rest => if k = key then v else lookupL rest key

/-- Store a latency-sample map entry (`m[key] = l`). -/
def storeL (m : List (String × List Nat)) (key : String) (l : List Nat) :
    List (String × List Nat) :=
  match m with
  | [] => [(key, l)]
  | (k, v) :: rest =>
    if k = key then (k, l) :: rest else (k, v) :: storeL rest key l

/-- `internal/middleware` (metrics collector) — `MetricsCollector`. Latency
samples are `time.Duration` values from `time.Since`, hence `Nat` nanoseconds. -/
structure MetricsCollector where
  requestCount : List (String × Nat)     -- route:tenant:status
  errorCount : List (String × Nat)       -- route:tenant
  droppedCount : List (String × Nat)     -- chaos dropped requests
  rateLimitCount : List (String × Nat)   -- tenant blocked by rate limit
  latencies : List (String × List Nat)   -- route:tenant -> durations
  deriving DecidableEq, Repr

/-- The freshly initialised collector (`metricsCollector` package variable). -/
def MetricsCollector.empty : MetricsCollector :=
  { requestCount := [], errorCount := [], droppedCount := [],
    rateLimitCount := [], latencies := [] }

/-- Metrics `RecordRequest(route, tenant, status)`. -/
def mRecordRequest (route tenant status : String) (m : MetricsCollector) :
    MetricsCollector :=
  { m with requestCount := bump m.requestCount (route ++ ":" ++ tenant ++ ":" ++ status) }

/-- The per-key body of metrics `RecordLatency`: append the new sample, then
`if len > 1000 { samples = samples[1:] }`. -/
def latencyStep (samples : List Nat) (duration : Nat) : List Nat :=
  let appended := samples ++ [duration]
  if 1000 < appended.length then appended.drop 1 else appended

/-- Metrics `RecordLatency(route, tenant, duration)`. -/
def mRecordLatency (route tenant : String) (duration : Nat)
    (m : MetricsCollector) : MetricsCollector :=
  let key := route ++ ":" ++ tenant
  { m with latencies := storeL m.latencies key (latencyStep (lookupL m.latencies key) duration) }

/-- Metrics `RecordError(route, tenant)`. -/
def mRecordError (route tenant : String) (m : MetricsCollector) :
    MetricsCollector :=
  { m with errorCount := bump m.errorCount (route ++ ":" ++ tenant) }

/-- Metrics `RecordDropped(route, tenant)`. -/
def mRecordDropped (route tenant : String) (m : MetricsCollector) :
    MetricsCollector :=
  { m with droppedCount := bump m.droppedCount (route ++ ":" ++ tenant) }

/-- Metrics `RecordRateLimit(tenant)`. -/
def mRecordRateLimit (tenant : String) (m : MetricsCollector) :
    MetricsCollector :=
  { m with rateLimitCount := bump m.rateLimitCount tenant }

/-- The outcome of the chaos middleware for one request. -/
inductive Outcome where
  | backend      -- `next.ServeHTTP(w, r)` reached: request passes through
  | failed503    -- synthetic 503 Service Unavailable (chaos injection)
  | dropped504   -- synthetic 504 Gateway Timeout (chaos injection)
  deriving DecidableEq, Repr

/-- `chaos.Middleware` (the per-request decision pipeline), with the
configuration snapshot `cfg` returned by `Get()`, the request path, the two
`rand.Intn(100)` draws (`dErr` for the error stage, `dDrop` for the drop
stage; each draw is only consumed when its stage's `&&` reaches it), the
chaos stats and the metrics collector state.  The metrics collector is
carried through to record which state the middleware touches. -/
def chaosMiddleware (cfg : Config) (path : String) (dErr dDrop : Fin 100)
    (s : Stats) (m : MetricsCollector) : Outcome × Stats × MetricsCollector :=
  let s := recordRequest s
  if cfg.enabled = false then
    (Outcome.backend, s, m)
  else if cfg.route ≠ "" ∧ cfg.route ≠ path then
    (Outcome.backend, s, m)
  else
    let s := if 0 < cfg.delay then recordDelay s else s
    if 0 < cfg.errorRate ∧ (dErr.val : Int) < cfg.errorRate then
      (Outcome.failed503, recordFail s, m)
    else if 0 < cfg.dropRate ∧ (dDrop.val : Int) < cfg.dropRate then
      (Outcome.dropped504, recordDrop s, m)
    else
      (Outcome.backend, s, m)

/-- The inner loop of `calculatePercentiles`' exchange sort, for one fixed
outer index: scanning `for j := i+1; ...`, whenever `sorted[j] < sorted[i]`
the two entries are swapped.  `x` is the current value at position `i`; the
result is the final value at position `i` together with the rewritten tail. -/
def innerLoop (x : Nat) : List Nat → Nat × List Nat
  | [] => (x, [])
  | y :: ys =>
    if y < x then
      let r := innerLoop y ys
      (r.1, x :: r.2)
    else
      let r := innerLoop x ys
      (r.1, y :: r.2)

/-- The outer loop of `calculatePercentiles`' exchange sort.  The Go loop
`for i := 0; i < len(sorted); i++` runs exactly `len(sorted)` iterations;
`fuel` counts the remaining iterations. -/
def exchangeSortAux : Nat → List Nat → List Nat
  | 0, _ => []
  | _ + 1, [] => []
  | fuel + 1, x :: xs =>
    let r := innerLoop x xs
    r.1 :: exchangeSortAux fuel r.2

/-- The full in-place exchange sort of `calculatePercentiles` (`sorted` is a
copy, the input is not mutated). -/
def exchangeSort (l : List Nat) : List Nat :=
  exchangeSortAux l.length l

/-- `time.Duration.Milliseconds()`: integer division by 10^6 (the samples are
non-negative, so Go's truncated division agrees with `Nat` division).  The Go
function returns these integral millisecond counts converted to `float64`,
which is exact on this range. -/
def msOf (d : Nat) : Nat := d / 1000000

/-- Metrics `calculatePercentiles`: empty input yields `(0, 0, 0)`; otherwise
sort the samples and read the entries at the zero-based indices
`n*50/100`, `n*95/100`, `n*99/100`, in milliseconds.  Go indexes the slice
directly; the indices are proved in bounds (`calc_percentiles_safe`), so the
default value of `getD` is never read. -/
def calculatePercentiles (durations : List Nat) : Nat × Nat × Nat :=
  if durations.length = 0 then (0, 0, 0)
  else
    let sorted := exchangeSort durations
    (msOf (sorted.getD (sorted.length * 50 / 100) 0),
     msOf (sorted.getD (sorted.length * 95 / 100) 0),
     msOf (sorted.getD (sorted.length * 99 / 100) 0))

/-- The `latency_percentiles` construction inside metrics `GetMetrics`:
iterate over the latency map, skip keys whose sample list is empty
(`if len(durations) == 0 { continue }`), and store the computed percentile
triple for the rest. -/
def buildPercentiles (latencies : List (String × List Nat)) :
    List (String × (Nat × Nat × Nat)) :=
  match latencies with
  | [] => []
  | (key, durations) :: rest =>
    if durations.length = 0 then buildPercentiles rest
    else (key, calculatePercentiles durations) :: buildPercentiles rest

/-- `internal/tenant` — `Tenant`. -/
structure Tenant where
  id : String
  name : String
  deriving DecidableEq, Repr

/-- The outcome of the rate-limit middleware for one request. -/
inductive RLOutcome where
  | unauthorized   -- tenant missing from the request context (401)
  | blocked        -- "Rate limit exceeded" (429)
  | forwarded      -- `next.ServeHTTP(w, r)` reached
  deriving DecidableEq, Repr

/-- `ratelimit.(*RateLimiter).Middleware` for one request.  `limit` is the
configured bucket size; `tenantCtx` is the tenant stored in the request
context; `tokens` is the state of the Redis key `ratelimit:<tenant>`:
`none` when Redis answers `redis.Nil` (first request in the window),
`some n` for a stored counter (already parsed by `strconv.Atoi`).  Returns
the outcome, the new token state and the metrics collector state (carried
through to record which state the middleware touches). -/
def rateLimitMiddleware (limit : Int) (tenantCtx : Option Tenant)
    (tokens : Option Int) (m : MetricsCollector) :
    RLOutcome × Option Int × MetricsCollector :=
  match tenantCtx with
  | none => (RLOutcome.unauthorized, tokens, m)
  | some _ =>
    match tokens with
    | none => (RLOutcome.forwarded, some (limit - 1), m)
    | some n =>
      if n ≤ 0 then (RLOutcome.blocked, some n, m)
      else (RLOutcome.forwarded, some (n - 1), m)

/-- `internal/chaos/admin.go` — `ChaosRequest` (decoded JSON body). -/
structure ChaosRequest where
  failBackend : Bool
  slowMs : Int
  dropPercent : Int
  durationSec : Int
  route : String
  deriving DecidableEq, Repr

/-- The configuration built by `ChaosConfigHandler` from a decoded request at
time `now`: starts from `Enabled: true` with all rates zero, then applies
each positive field; `DurationSec > 0` sets `ExpiresAt = now + duration`. -/
def buildChaosConfig (req : ChaosRequest) (now : Int) : Config :=
  let cfg : Config :=
    { enabled := true, route := req.route, errorRate := 0, dropRate := 0,
      delay := 0, expiresAt := 0 }
  let cfg := if req.failBackend then { cfg with errorRate := 100 } else cfg
  let cfg := if 0 < req.slowMs then { cfg with delay := req.slowMs * 1000000 } else cfg
  let cfg := if 0 < req.dropPercent then { cfg with dropRate := req.dropPercent } else cfg
  if 0 < req.durationSec then { cfg with expiresAt := now + req.durationSec * 1000000000 }
  else cfg

/-- `ChaosConfigHandler` after decoding: build the configuration and install
it through the controller's `Set`. -/
def chaosConfigHandler (req : ChaosRequest) (now : Int) (st : Config × Stats) :
    Config × Stats :=
  setConfig (buildChaosConfig req now) now st

/-- The P8 sample buffer: the 100 synthetic latencies 1ms through 100ms, in
nanoseconds, in arrival order. -/
def p8input : List Nat := (List.range 100).map fun i => (i + 1) * 1000000

/-- One atomic, lock-protected stats increment of the chaos controller
(`RecordRequest` / `RecordDrop` / `RecordFail` / `RecordDelay` each run their
`++` under `mu.Lock()`, so each increment is one indivisible step). -/
inductive StatEvent where
  | totalInc
  | dropInc
  | failInc
  | delayInc
  deriving DecidableEq, Repr

/-- Apply one atomic stats increment. -/
def applyEvent (s : Stats) : StatEvent → Stats
  | StatEvent.totalInc => recordRequest s
  | StatEvent.dropInc => recordDrop s
  | StatEvent.failInc => recordFail s
  | StatEvent.delayInc => recordDelay s

/-- The sequence of atomic stats increments one pass of `chaos.Middleware`
issues, in program order (the branch structure mirrors `chaosMiddleware`;
`chaosEvents_spec` proves the two agree). -/
def chaosEvents (cfg : Config) (path : String) (dErr dDrop : Fin 100) :
    List StatEvent :=
  StatEvent.totalInc ::
    (if cfg.enabled = false then []
     else if cfg.route ≠ "" ∧ cfg.route ≠ path then []
     else
       (if 0 < cfg.delay then [StatEvent.delayInc] else []) ++
       (if 0 < cfg.errorRate ∧ (dErr.val : Int) < cfg.errorRate then
          [StatEvent.failInc]
        else if 0 < cfg.dropRate ∧ (dDrop.val : Int) < cfg.dropRate then
          [StatEvent.dropInc]
        else []))

/-- The P10 configuration: chaos enabled on all routes with `errorRate=50`. -/
def cfg50 : Config :=
  { enabled := true, route := "", delay := 0, errorRate := 50, dropRate := 0,
    expiresAt := 0 }

/-- A configuration that drops every matching request (`dropPercent=100`). -/
def cfgDrop : Config :=
  { enabled := true, route := "", delay := 0, errorRate := 0, dropRate := 100,
    expiresAt := 0 }

/-- The canonical (program-order) multiset of atomic stats increments issued
by 1000 requests through the chaos middleware under `cfg50`, request `i`
using the draw pair `draws i`.  A concurrent execution is any interleaving
(permutation) of these events: each increment runs under the controller's
mutex, and increments of independent requests may interleave arbitrarily. -/
def p10Schedule (path : String) (draws : Fin 1000 → Fin 100 × Fin 100) :
    List StatEvent :=
  (((List.finRange 1000).map fun i =>
    chaosEvents cfg50 path (draws i).1 (draws i).2)).flatten

/-! ## Helper lemmas -/

theorem innerLoop_length (x : Nat) (l : List Nat) :
    (innerLoop x l).2.length = l.length := by
  induction l generalizing x with
  | nil => rfl
  | cons y ys ih =>
    simp only [innerLoop]
    split <;> simp [ih]

theorem exchangeSortAux_length (fuel : Nat) (l : List Nat) :
    (exchangeSortAux fuel l).length = min fuel l.length := by
  induction fuel generalizing l with
  | zero => simp [exchangeSortAux]
  | succ n ih =>
    cases l with
    | nil => simp [exchangeSortAux]
    | cons x xs =>
      simp only [exchangeSortAux, List.length_cons, ih, innerLoop_length]
      omega

theorem exchangeSort_length (l : List Nat) :
    (exchangeSort l).length = l.length := by
  simp [exchangeSort, exchangeSortAux_length]

theorem lookupL_storeL (m : List (String × List Nat)) (key : String)
    (l : List Nat) : lookupL (storeL m key l) key = l := by
  induction m with
  | nil => simp [storeL, lookupL]
  | cons kv rest ih =>
    obtain ⟨k, v⟩ := kv
    simp only [storeL]
    by_cases h : k = key <;> simp [lookupL, h, ih]

/-! ## C1 — percentile values on the 1ms..100ms buffer -/

/-- C1 counterexample: on the buffer holding exactly the 100 values
1ms through 100ms, `calculatePercentiles` (sort, then select at the
zero-based ranks `n*p/100`) does **not** return p50=50, p95=95, p99=99:
index `100*50/100 = 50` of the zero-indexed sorted buffer holds the 51st
value, 51ms. -/
theorem c1_percentiles_not_50_95_99 :
    calculatePercentiles p8input ≠ (50, 95, 99) := by
  decide

/-- C1 (amended): when the sample buffer holds exactly the 100 values 1ms
through 100ms, sorting the buffer and selecting the element at rank
`floor(n * percentile/100)` (zero-indexed) yields p50=51, p95=96, p99=100. -/
theorem c1_percentiles_on_1_to_100ms :
    calculatePercentiles p8input = (51, 96, 100) := by
  decide

/-! ## C2 — the metrics collector is never updated by chaos drops or
rate-limit blocks -/

/-- C2: the chaos middleware and the rate limiter never touch the metrics
collector at all — in particular a request dropped by chaos increments only
the chaos controller's `droppedRequests`, leaving the collector's
`droppedCount` untouched, and a rate-limited request is answered 429 with
`rateLimitCount` untouched — even though `RecordDropped`/`RecordRateLimit`
would have changed the collector had they been invoked. -/
theorem c2_metrics_collector_never_updated :
    (∀ cfg path dErr dDrop s m,
        (chaosMiddleware cfg path dErr dDrop s m).2.2 = m) ∧
    (∀ limit t tok m, (rateLimitMiddleware limit t tok m).2.2 = m) ∧
    chaosMiddleware cfgDrop "/users" 0 0 Stats.zero MetricsCollector.empty =
      (Outcome.dropped504,
       { Stats.zero with totalRequests := 1, droppedRequests := 1 },
       MetricsCollector.empty) ∧
    rateLimitMiddleware 5 (some { id := "tenantA", name := "Tenant A" })
        (some 0) MetricsCollector.empty =
      (RLOutcome.blocked, some 0, MetricsCollector.empty) ∧
    mRecordDropped "/users" "tenantA" MetricsCollector.empty ≠
      MetricsCollector.empty ∧
    mRecordRateLimit "tenantA" MetricsCollector.empty ≠
      MetricsCollector.empty := by
  refine ⟨?_, ?_, by decide, by decide, by decide, by decide⟩
  · intro cfg path dErr dDrop s m
    simp only [chaosMiddleware]
    repeat' split
    all_goals rfl
  · intro limit t tok m
    simp only [rateLimitMiddleware]
    repeat' split
    all_goals rfl

/-! ## C3 — error and drop are mutually exclusive in one pass -/

/-- C3: for every configuration (including both rates high) and every pair of
independent draws, one pass of the chaos middleware increments at most one of
`failedRequests` and `droppedRequests`; when the error stage triggers it
terminates the request with the 503 outcome, so the drop stage is never
reached. -/
theorem c3_error_drop_mutually_exclusive (cfg : Config) (path : String)
    (dErr dDrop : Fin 100) (s : Stats) (m : MetricsCollector) :
    ((chaosMiddleware cfg path dErr dDrop s m).2.1.failedRequests =
        s.failedRequests ∧
     (chaosMiddleware cfg path dErr dDrop s m).2.1.droppedRequests =
        s.droppedRequests) ∨
    ((chaosMiddleware cfg path dErr dDrop s m).2.1.failedRequests =
        s.failedRequests + 1 ∧
     (chaosMiddleware cfg path dErr dDrop s m).2.1.droppedRequests =
        s.droppedRequests ∧
     (chaosMiddleware cfg path dErr dDrop s m).1 = Outcome.failed503) ∨
    ((chaosMiddleware cfg path dErr dDrop s m).2.1.failedRequests =
        s.failedRequests ∧
     (chaosMiddleware cfg path dErr dDrop s m).2.1.droppedRequests =
        s.droppedRequests + 1 ∧
     (chaosMiddleware cfg path dErr dDrop s m).1 = Outcome.dropped504) := by
  simp only [chaosMiddleware]
  repeat' split
  all_goals simp [recordRequest, recordDelay, recordFail, recordDrop]

/-! ## C4 — forced failure with errorRate=100 -/

/-- C4: with `enabled=true`, `errorRate=100`, `dropRate=0`, `delay=0` and a
matching (or empty) route filter, every request is answered with the
synthetic 503 outcome (the backend stage is not reached), `failedRequests`
grows by exactly one, and `droppedRequests` is unchanged. -/
theorem c4_forced_failure (route path : String) (e : Int)
    (dErr dDrop : Fin 100) (s : Stats) (m : MetricsCollector)
    (hroute : route = "" ∨ route = path) :
    (chaosMiddleware
        { enabled := true, route := route, delay := 0, errorRate := 100,
          dropRate := 0, expiresAt := e } path dErr dDrop s m).1 =
      Outcome.failed503 ∧
    (chaosMiddleware
        { enabled := true, route := route, delay := 0, errorRate := 100,
          dropRate := 0, expiresAt := e } path dErr dDrop s m).2.1.failedRequests =
      s.failedRequests + 1 ∧
    (chaosMiddleware
        { enabled := true, route := route, delay := 0, errorRate := 100,
          dropRate := 0, expiresAt := e } path dErr dDrop s m).2.1.droppedRequests =
      s.droppedRequests := by
  have hdraw : (dErr.val : Int) < 100 := by exact_mod_cast dErr.isLt
  rcases hroute with h | h <;>
    simp [chaosMiddleware, h, hdraw, recordRequest, recordFail]

/-- C4 witness: a concrete request (empty route filter, draws 0) is failed
with exactly one `failedRequests` increment. -/
theorem c4_forced_failure_witness :
    (chaosMiddleware
        { enabled := true, route := "", delay := 0, errorRate := 100,
          dropRate := 0, expiresAt := 0 } "/users" 0 0 Stats.zero
        MetricsCollector.empty).1 = Outcome.failed503 ∧
    (chaosMiddleware
        { enabled := true, route := "", delay := 0, errorRate := 100,
          dropRate := 0, expiresAt := 0 } "/users" 0 0 Stats.zero
        MetricsCollector.empty).2.1.failedRequests =
      Stats.zero.failedRequests + 1 ∧
    (chaosMiddleware
        { enabled := true, route := "", delay := 0, errorRate := 100,
          dropRate := 0, expiresAt := 0 } "/users" 0 0 Stats.zero
        MetricsCollector.empty).2.1.droppedRequests =
      Stats.zero.droppedRequests :=
  c4_forced_failure "" "/users" 0 0 0 Stats.zero MetricsCollector.empty
    (Or.inl rfl)

/-! ## C5 — disabled chaos is a pure pass-through, totalRequests counted
unconditionally -/

/-- C5: `totalRequests` is incremented exactly once per request whether or
not chaos is enabled; and with `enabled=false` the request reaches the
backend stage with `droppedRequests`, `failedRequests`, `delayedRequests`
and the metrics collector all unchanged. -/
theorem c5_disabled_passthrough (cfg : Config) (path : String)
    (dErr dDrop : Fin 100) (s : Stats) (m : MetricsCollector) :
    ((chaosMiddleware cfg path dErr dDrop s m).2.1.totalRequests =
        s.totalRequests + 1) ∧
    (cfg.enabled = false →
      (chaosMiddleware cfg path dErr dDrop s m).1 = Outcome.backend ∧
      (chaosMiddleware cfg path dErr dDrop s m).2.1.droppedRequests =
        s.droppedRequests ∧
      (chaosMiddleware cfg path dErr dDrop s m).2.1.failedRequests =
        s.failedRequests ∧
      (chaosMiddleware cfg path dErr dDrop s m).2.1.delayedRequests =
        s.delayedRequests ∧
      (chaosMiddleware cfg path dErr dDrop s m).2.2 = m) := by
  constructor
  · simp only [chaosMiddleware]
    repeat' split
    all_goals simp [recordRequest, recordDelay, recordFail, recordDrop]
  · intro h
    simp [chaosMiddleware, h, recordRequest]

/-- C5 witness: a concrete disabled configuration passes a request through
with only the `totalRequests` counter moving. -/
theorem c5_disabled_passthrough_witness :
    ((chaosMiddleware Config.zero "/users" 0 0 Stats.zero
        MetricsCollector.empty).2.1.totalRequests =
      Stats.zero.totalRequests + 1) ∧
    ((chaosMiddleware Config.zero "/users" 0 0 Stats.zero
        MetricsCollector.empty).1 = Outcome.backend ∧
     (chaosMiddleware Config.zero "/users" 0 0 Stats.zero
        MetricsCollector.empty).2.1.droppedRequests =
       Stats.zero.droppedRequests ∧
     (chaosMiddleware Config.zero "/users" 0 0 Stats.zero
        MetricsCollector.empty).2.1.failedRequests =
       Stats.zero.failedRequests ∧
     (chaosMiddleware Config.zero "/users" 0 0 Stats.zero
        MetricsCollector.empty).2.1.delayedRequests =
       Stats.zero.delayedRequests ∧
     (chaosMiddleware Config.zero "/users" 0 0 Stats.zero
        MetricsCollector.empty).2.2 = MetricsCollector.empty) :=
  ⟨(c5_disabled_passthrough Config.zero "/users" 0 0 Stats.zero
      MetricsCollector.empty).1,
   (c5_disabled_passthrough Config.zero "/users" 0 0 Stats.zero
      MetricsCollector.empty).2 rfl⟩

/-! ## C6 — the auto-recovery tick -/

/-- C6: a scheduler tick resets the configuration to its zero value and
stamps `lastRecoveryTime` exactly when the configuration is enabled, has a
non-zero `expiresAt` and the current time is strictly past it; in every
other state it changes nothing; a configuration with absent (`0`)
`expiresAt` is never auto-cleared; and after a tick no enabled-and-expired
configuration remains. -/
theorem c6_auto_recovery_tick (now : Int) (cfg : Config) (s : Stats) :
    (cfg.enabled = true ∧ cfg.expiresAt ≠ 0 ∧ cfg.expiresAt < now →
       autoRecoverTick now cfg s =
         (Config.zero, { s with lastRecoveryTime := now })) ∧
    (¬(cfg.enabled = true ∧ cfg.expiresAt ≠ 0 ∧ cfg.expiresAt < now) →
       autoRecoverTick now cfg s = (cfg, s)) ∧
    (cfg.expiresAt = 0 → autoRecoverTick now cfg s = (cfg, s)) ∧
    ¬((autoRecoverTick now cfg s).1.enabled = true ∧
      (autoRecoverTick now cfg s).1.expiresAt ≠ 0 ∧
      (autoRecoverTick now cfg s).1.expiresAt < now) := by
  by_cases h : cfg.enabled = true ∧ cfg.expiresAt ≠ 0 ∧ cfg.expiresAt < now
  · refine ⟨fun _ => by simp [autoRecoverTick, h], fun hc => absurd h hc,
      fun h0 => absurd h0 h.2.1, ?_⟩
    simp [autoRecoverTick, h, Config.zero]
  · refine ⟨fun hc => absurd hc h, fun _ => by simp [autoRecoverTick, h],
      fun _ => by simp [autoRecoverTick, h], ?_⟩
    simp only [autoRecoverTick, if_neg h]
    exact h

/-- C6 witness: at time 10, an enabled configuration that expired at time 3
is cleared and `lastRecoveryTime` stamped; the same configuration with
`expiresAt = 0` is left alone. -/
theorem c6_auto_recovery_tick_witness :
    autoRecoverTick 10
        { enabled := true, route := "", delay := 0, errorRate := 100,
          dropRate := 0, expiresAt := 3 } Stats.zero =
      (Config.zero, { Stats.zero with lastRecoveryTime := 10 }) ∧
    autoRecoverTick 10
        { enabled := true, route := "", delay := 0, errorRate := 100,
          dropRate := 0, expiresAt := 0 } Stats.zero =
      (({ enabled := true, route := "", delay := 0, errorRate := 100,
          dropRate := 0, expiresAt := 0 } : Config), Stats.zero) :=
  ⟨(c6_auto_recovery_tick 10
      { enabled := true, route := "", delay := 0, errorRate := 100,
        dropRate := 0, expiresAt := 3 } Stats.zero).1
      ⟨rfl, by decide, by decide⟩,
   (c6_auto_recovery_tick 10
      { enabled := true, route := "", delay := 0, errorRate := 100,
        dropRate := 0, expiresAt := 0 } Stats.zero).2.2.1 rfl⟩

/-! ## C7 — the bounded latency buffer -/

theorem foldl_latencyStep_drop (xs : List Nat) :
    List.foldl latencyStep [] xs = xs.drop (xs.length - 1000) := by
  induction xs using List.reverseRecOn with
  | nil => rfl
  | append_singleton xs d ih =>
    rw [List.foldl_append, List.foldl_cons, List.foldl_nil, ih]
    by_cases h : xs.length < 1000
    · have h0 : xs.length - 1000 = 0 := by omega
      have h1 : (xs ++ [d]).length - 1000 = 0 := by
        rw [List.length_append]; simp; omega
      rw [h0, List.drop_zero, h1, List.drop_zero]
      simp only [latencyStep]
      rw [if_neg (by rw [List.length_append]; simp; omega)]
    · have hlen : (xs.drop (xs.length - 1000)).length = 1000 := by
        rw [List.length_drop]; omega
      simp only [latencyStep]
      rw [if_pos (by simp [hlen])]
      rw [List.drop_append_of_le_length
        (by omega : (1 : Nat) ≤ (xs.drop (xs.length - 1000)).length)]
      rw [List.drop_drop]
      have h2 : xs.length - 1000 + 1 = (xs ++ [d]).length - 1000 := by
        rw [List.length_append]; simp; omega
      rw [h2]
      rw [List.drop_append_of_le_length (by rw [List.length_append]; simp)]

/-- C7: one `RecordLatency` step keeps a per-key sample list at or below
1000 entries; recording any sequence of samples for one key, starting from
the empty buffer, leaves exactly the most recent `min(n, 1000)` samples in
arrival order (oldest evicted first); and `RecordLatency` applies exactly
this step to the key's entry of the latency map. -/
theorem c7_bounded_latency_buffer :
    (∀ (l : List Nat) (d : Nat), l.length ≤ 1000 →
       (latencyStep l d).length ≤ 1000) ∧
    (∀ xs : List Nat,
       List.foldl latencyStep [] xs = xs.drop (xs.length - 1000)) ∧
    (∀ xs : List Nat,
       (List.foldl latencyStep [] xs).length = min xs.length 1000) ∧
    (∀ (route tenant : String) (d : Nat) (m : MetricsCollector),
       lookupL (mRecordLatency route tenant d m).latencies
           (route ++ ":" ++ tenant) =
         latencyStep (lookupL m.latencies (route ++ ":" ++ tenant)) d) := by
  refine ⟨?_, foldl_latencyStep_drop, ?_, ?_⟩
  · intro l d hl
    simp only [latencyStep]
    split <;> simp_all [List.length_drop]
  · intro xs
    rw [foldl_latencyStep_drop, List.length_drop]
    omega
  · intro route tenant d m
    simp only [mRecordLatency]
    exact lookupL_storeL m.latencies (route ++ ":" ++ tenant) _

/-- C7 witness: a concrete step below the cap keeps the bound, and folding
three samples from the empty buffer keeps all three in arrival order. -/
theorem c7_bounded_latency_buffer_witness :
    ([1, 2, 3] : List Nat).length ≤ 1000 ∧
    (latencyStep [1, 2, 3] 4).length ≤ 1000 ∧
    List.foldl latencyStep [] [5, 6, 7] =
      ([5, 6, 7] : List Nat).drop (([5, 6, 7] : List Nat).length - 1000) ∧
    (List.foldl latencyStep [] [5, 6, 7]).length =
      min ([5, 6, 7] : List Nat).length 1000 :=
  ⟨by decide, c7_bounded_latency_buffer.1 [1, 2, 3] 4 (by decide),
   c7_bounded_latency_buffer.2.1 [5, 6, 7],
   c7_bounded_latency_buffer.2.2.1 [5, 6, 7]⟩

/-! ## C8 — the apply-chaos administrative handler -/

/-- C8: the configuration installed by the apply-chaos handler always has
`enabled=true` (a request with `failBackend=false`, `slowMs=0`,
`dropPercent=0` still arms chaos, with all rates zero); non-positive
`slowMs`/`dropPercent` leave delay and drop rate at zero; non-positive
`durationSec` leaves `expiresAt` at its zero value; and installing the
configuration through `Set` stamps `lastInjectionTime`. -/
theorem c8_admin_handler_arms_chaos (req : ChaosRequest) (now : Int)
    (st : Config × Stats) :
    (buildChaosConfig req now).enabled = true ∧
    (req.failBackend = false → (buildChaosConfig req now).errorRate = 0) ∧
    (req.slowMs ≤ 0 → (buildChaosConfig req now).delay = 0) ∧
    (req.dropPercent ≤ 0 → (buildChaosConfig req now).dropRate = 0) ∧
    (req.durationSec ≤ 0 → (buildChaosConfig req now).expiresAt = 0) ∧
    (chaosConfigHandler req now st).1 = buildChaosConfig req now ∧
    (chaosConfigHandler req now st).2.lastInjectionTime = now := by
  refine ⟨?_, ?_, ?_, ?_, ?_, ?_, ?_⟩ <;>
    simp only [buildChaosConfig, chaosConfigHandler, setConfig] <;>
    repeat' split
  all_goals
    first
    | rfl
    | (intro h; omega)
    | (intro h; rfl)
    | simp_all

/-- C8 witness: the all-zero request still arms chaos with zero rates, no
delay and no expiry, and stamps `lastInjectionTime`. -/
theorem c8_admin_handler_arms_chaos_witness :
    (buildChaosConfig
        { failBackend := false, slowMs := 0, dropPercent := 0,
          durationSec := 0, route := "" } 7).enabled = true ∧
    (buildChaosConfig
        { failBackend := false, slowMs := 0, dropPercent := 0,
          durationSec := 0, route := "" } 7).errorRate = 0 ∧
    (buildChaosConfig
        { failBackend := false, slowMs := 0, dropPercent := 0,
          durationSec := 0, route := "" } 7).delay = 0 ∧
    (buildChaosConfig
        { failBackend := false, slowMs := 0, dropPercent := 0,
          durationSec := 0, route := "" } 7).dropRate = 0 ∧
    (buildChaosConfig
        { failBackend := false, slowMs := 0, dropPercent := 0,
          durationSec := 0, route := "" } 7).expiresAt = 0 ∧
    (chaosConfigHandler
        { failBackend := false, slowMs := 0, dropPercent := 0,
          durationSec := 0, route := "" } 7
        (Config.zero, Stats.zero)).2.lastInjectionTime = 7 := by
  have h := c8_admin_handler_arms_chaos
    { failBackend := false, slowMs := 0, dropPercent := 0,
      durationSec := 0, route := "" } 7 (Config.zero, Stats.zero)
  exact ⟨h.1, h.2.1 rfl, h.2.2.1 (by decide), h.2.2.2.1 (by decide),
    h.2.2.2.2.1 (by decide), h.2.2.2.2.2.2⟩

/-! ## C9 — the percentile computation never indexes out of bounds -/

/-- C9: on the empty list `calculatePercentiles` returns `(0, 0, 0)`; on a
non-empty list of length `n` the sort preserves the length and the three
selected ranks `n*50/100`, `n*95/100`, `n*99/100` are each strictly below
`n`, so the selections are in bounds; and the metrics snapshot's percentile
map only holds keys whose sample list was non-empty. -/
theorem c9_percentiles_in_bounds (l : List Nat) :
    calculatePercentiles ([] : List Nat) = (0, 0, 0) ∧
    (l ≠ [] →
      (exchangeSort l).length = l.length ∧
      l.length * 50 / 100 < l.length ∧
      l.length * 95 / 100 < l.length ∧
      l.length * 99 / 100 < l.length) ∧
    (∀ (lat : List (String × List Nat)) (key : String) (p : Nat × Nat × Nat),
       (key, p) ∈ buildPercentiles lat →
       ∃ ds, (key, ds) ∈ lat ∧ ds ≠ [] ∧ p = calculatePercentiles ds) := by
  refine ⟨rfl, ?_, ?_⟩
  · intro hne
    have hpos : 0 < l.length := List.length_pos.mpr hne
    exact ⟨exchangeSort_length l, by omega, by omega, by omega⟩
  · intro lat
    induction lat with
    | nil => intro key p hp; cases hp
    | cons kv rest ih =>
      obtain ⟨k, ds⟩ := kv
      intro key p hp
      simp only [buildPercentiles] at hp
      by_cases hds : ds.length = 0
      · rw [if_pos hds] at hp
        obtain ⟨ds', h1, h2, h3⟩ := ih key p hp
        exact ⟨ds', List.mem_cons_of_mem _ h1, h2, h3⟩
      · rw [if_neg hds] at hp
        rcases List.mem_cons.mp hp with heq | hmem
        · obtain ⟨hk, hv⟩ := Prod.mk.injEq .. ▸ heq
          exact ⟨ds, by rw [← hk]; exact List.mem_cons_self _ _,
            fun hnil => hds (by rw [hnil]; rfl), by rw [hv]⟩
        · obtain ⟨ds', h1, h2, h3⟩ := ih key p hmem
          exact ⟨ds', List.mem_cons_of_mem _ h1, h2, h3⟩

/-- C9 witness: the singleton list has all three ranks in bounds, and the
entry the percentile map reports for key `"b"` of a two-key latency map (one
key empty, one holding the single sample 3ms) really comes from a non-empty
sample list. -/
theorem c9_percentiles_in_bounds_witness :
    (([42] : List Nat) ≠ [] ∧
      (exchangeSort [42]).length = ([42] : List Nat).length ∧
      ([42] : List Nat).length * 50 / 100 < ([42] : List Nat).length ∧
      ([42] : List Nat).length * 95 / 100 < ([42] : List Nat).length ∧
      ([42] : List Nat).length * 99 / 100 < ([42] : List Nat).length) ∧
    ∃ ds, (("b" : String), ds) ∈ [(("b" : String), [(3000000 : Nat)]),
        ("a", [])] ∧
      ds ≠ [] ∧ ((3 : Nat), (3 : Nat), (3 : Nat)) = calculatePercentiles ds :=
  ⟨⟨by decide, (c9_percentiles_in_bounds [42]).2.1 (by decide)⟩,
   (c9_percentiles_in_bounds [42]).2.2 [("b", [3000000]), ("a", [])]
     "b" (3, 3, 3) (by decide)⟩

/-! ## C10 — no lost increments under arbitrary interleaving -/

theorem foldl_applyEvent_total (s : Stats) (l : List StatEvent) :
    (List.foldl applyEvent s l).totalRequests =
      s.totalRequests + l.count StatEvent.totalInc := by
  induction l generalizing s with
  | nil => simp
  | cons e rest ih =>
    cases e <;>
      simp [applyEvent, recordRequest, recordDrop, recordFail, recordDelay,
        ih, List.count_cons]
    all_goals omega

theorem foldl_applyEvent_failed (s : Stats) (l : List StatEvent) :
    (List.foldl applyEvent s l).failedRequests =
      s.failedRequests + l.count StatEvent.failInc := by
  induction l generalizing s with
  | nil => simp
  | cons e rest ih =>
    cases e <;>
      simp [applyEvent, recordRequest, recordDrop, recordFail, recordDelay,
        ih, List.count_cons]
    all_goals omega

theorem chaosEvents_stats (cfg : Config) (path : String)
    (dErr dDrop : Fin 100) (s : Stats) (m : MetricsCollector) :
    List.foldl applyEvent s (chaosEvents cfg path dErr dDrop) =
      (chaosMiddleware cfg path dErr dDrop s m).2.1 := by
  simp only [chaosEvents, chaosMiddleware]
  repeat' split
  all_goals simp [applyEvent]

theorem chaosEvents_cfg50 (path : String) (dErr dDrop : Fin 100) :
    chaosEvents cfg50 path dErr dDrop =
      StatEvent.totalInc ::
        (if (dErr.val : Int) < 50 then [StatEvent.failInc] else []) := by
  simp [chaosEvents, cfg50]

theorem chaosMiddleware_cfg50_outcome (path : String) (dErr dDrop : Fin 100)
    (s : Stats) (m : MetricsCollector) :
    (chaosMiddleware cfg50 path dErr dDrop s m).1 =
      if (dErr.val : Int) < 50 then Outcome.failed503
      else Outcome.backend := by
  simp only [chaosMiddleware, cfg50]
  repeat' split
  all_goals simp_all

theorem sum_map_one {α : Type} (l : List α) :
    (l.map fun _ => (1 : Nat)).sum = l.length := by
  induction l with
  | nil => rfl
  | cons a rest ih => simp [ih, Nat.add_comm]

theorem sum_map_ite {α : Type} (l : List α) (p : α → Prop)
    [DecidablePred p] :
    (l.map fun i => if p i then (1 : Nat) else 0).sum =
      l.countP fun i => decide (p i) := by
  induction l with
  | nil => rfl
  | cons a rest ih =>
    by_cases h : p a <;> simp [h, ih, List.countP_cons, Nat.add_comm]

theorem countP_bool_split {α : Type} (l : List α) (p : α → Bool) :
    l.countP p + l.countP (fun i => !p i) = l.length := by
  induction l with
  | nil => rfl
  | cons a rest ih => cases h : p a <;> simp [List.countP_cons, h] <;> omega

/-- C10: for any draws of the 1000 requests and any interleaving (any
permutation of the per-request atomic, mutex-protected increments), the
final chaos stats satisfy `failedRequests + passedThrough = totalRequests
= 1000`, where `passedThrough` counts the requests whose middleware outcome
reached the backend — no increment is lost. -/
theorem c10_no_lost_increments (path : String)
    (draws : Fin 1000 → Fin 100 × Fin 100) (sched : List StatEvent)
    (hperm : sched.Perm (p10Schedule path draws)) :
    (List.foldl applyEvent Stats.zero sched).totalRequests = 1000 ∧
    (List.foldl applyEvent Stats.zero sched).failedRequests +
        ((List.finRange 1000).filter fun i =>
          (chaosMiddleware cfg50 path (draws i).1 (draws i).2 Stats.zero
            MetricsCollector.empty).1 = Outcome.backend).length =
      (List.foldl applyEvent Stats.zero sched).totalRequests := by
  have htot : (List.foldl applyEvent Stats.zero sched).totalRequests =
      sched.count StatEvent.totalInc := by
    rw [foldl_applyEvent_total]; simp [Stats.zero]
  have hfail : (List.foldl applyEvent Stats.zero sched).failedRequests =
      sched.count StatEvent.failInc := by
    rw [foldl_applyEvent_failed]; simp [Stats.zero]
  have hcount_tot : sched.count StatEvent.totalInc = 1000 := by
    rw [hperm.count_eq, p10Schedule, List.count_flatten, List.map_map]
    have hmap : ((List.finRange 1000).map
        (List.count StatEvent.totalInc ∘ fun i =>
          chaosEvents cfg50 path (draws i).1 (draws i).2)) =
        (List.finRange 1000).map fun _ => (1 : Nat) := by
      apply List.map_congr_left
      intro i _
      simp only [Function.comp_apply, chaosEvents_cfg50]
      split <;> rfl
    rw [hmap, sum_map_one, List.length_finRange]
  have hcount_fail : sched.count StatEvent.failInc =
      (List.finRange 1000).countP fun i =>
        decide (((draws i).1.val : Int) < 50) := by
    rw [hperm.count_eq, p10Schedule, List.count_flatten, List.map_map]
    have hmap : ((List.finRange 1000).map
        (List.count StatEvent.failInc ∘ fun i =>
          chaosEvents cfg50 path (draws i).1 (draws i).2)) =
        (List.finRange 1000).map fun i =>
          if (((draws i).1.val : Int) < 50) then (1 : Nat) else 0 := by
      apply List.map_congr_left
      intro i _
      simp only [Function.comp_apply, chaosEvents_cfg50]
      split <;> rfl
    rw [hmap, sum_map_ite]
  have hpassed : ((List.finRange 1000).filter fun i =>
      (chaosMiddleware cfg50 path (draws i).1 (draws i).2 Stats.zero
        MetricsCollector.empty).1 = Outcome.backend).length =
      (List.finRange 1000).countP fun i =>
        !decide (((draws i).1.val : Int) < 50) := by
    rw [← List.countP_eq_length_filter]
    apply List.countP_congr
    intro i _
    rw [chaosMiddleware_cfg50_outcome]
    by_cases h : ((draws i).1.val : Int) < 50 <;> simp [h]
  refine ⟨htot.trans hcount_tot, ?_⟩
  rw [htot, hfail, hcount_tot, hcount_fail, hpassed]
  rw [countP_bool_split (List.finRange 1000)
    (fun i => decide (((draws i).1.val : Int) < 50))]
  exact List.length_finRange 1000

set_option maxHeartbeats 2000000 in
/-- C10 witness: the program-order schedule itself (the identity
interleaving, all error draws 0) satisfies the conservation equation. -/
theorem c10_no_lost_increments_witness :
    (List.foldl applyEvent Stats.zero
        (p10Schedule "/users" fun _ => (0, 0))).totalRequests = 1000 ∧
    (List.foldl applyEvent Stats.zero
          (p10Schedule "/users" fun _ => (0, 0))).failedRequests +
        ((List.finRange 1000).filter fun i =>
          (chaosMiddleware cfg50 "/users" ((fun _ => ((0 : Fin 100),
            (0 : Fin 100))) i).1 ((fun _ => ((0 : Fin 100), (0 : Fin 100))) i).2
            Stats.zero MetricsCollector.empty).1 = Outcome.backend).length =
      (List.foldl applyEvent Stats.zero
        (p10Schedule "/users" fun _ => (0, 0))).totalRequests :=
  c10_no_lost_increments "/users" (fun _ => (0, 0)) _ (List.Perm.refl _)

end Gateway
